import Mathlib

/-!
# The retry loop of `fdb.Database` (src/fdb/database.go)

A shallow embedding of `Database.CreateTransaction`, `Database.Transact` and the
Database-level convenience operations built on `Transact`.

Conventions of the embedding.

* The native backend, the caller-supplied work and the blocking futures are state
  passing functions over a world state `σ`; a future is read at the point where the
  source blocks on it (`GetWithError`, `GetOrPanic`, `GetSliceOrPanic`).
* Every call the source makes to the backend or to the work is recorded, in order,
  as an `Event`.
* A Go value of interface type that may be nil is an `Option`; `none` is nil.
* A Go panic is an explicit outcome.  The repository is written for Go before
  1.21, where `panic(nil)` is allowed and `recover()` returns nil for it: the
  panic value `PanicValue.nil` stands for it.
* The `for` loop of `Transact` has no bound; the embedding runs it on a fuel
  counter, one unit per pass, and a run that uses all its fuel has outcome `none`
  and carries the calls made so far.
-/

namespace fdb

/-! ## Data model -/

/-- The struct `Error`: one native error code. -/
structure Error where
  code : Int
deriving DecidableEq, Repr

/-- A non-nil value of the interface type `error`, by dynamic type: a `*Error`
or anything else. -/
inductive GoError where
  | fdbError (e : Error)
  | otherError (id : Nat)
deriving DecidableEq, Repr

/-- A value given to `panic`, by dynamic type: the nil interface value of
`panic(nil)`, a `*Error`, the runtime error of a failed type assertion or of a
nil dereference, or anything else. -/
inductive PanicValue where
  | nil
  | fdbError (e : Error)
  | typeAssertion
  | nilDereference
  | other (id : Nat)
deriving DecidableEq, Repr

/-- The struct `Transaction`; `t` is the native handle `*C.FDBTransaction`. -/
structure Transaction where
  t : Nat
deriving DecidableEq, Repr

/-- The struct `Database`; `d` is the native handle `*C.FDBDatabase`, `none`
when it is nil.  The `Options` field only points back to the database. -/
structure Database where
  d : Option Nat
deriving DecidableEq, Repr

/-- One call made by the source, as seen from outside. -/
inductive Event where
  | createTransaction (d : Nat)
  | work (tr : Transaction)
  | commit (tr : Transaction)
  | onError (tr : Transaction) (e : Error)
deriving DecidableEq, Repr

/-- The calls of the backend that `Transact` makes.  `Commit` and `OnError`
stand for `tr.Commit().GetWithError()` and `tr.OnError(ep).GetWithError()`:
the error read from the future, `none` for nil. -/
structure Backend (σ : Type) where
  fdb_database_create_transaction : Nat → σ → (Int × Nat) × σ
  Commit : Transaction → σ → Option GoError × σ
  OnError : Transaction → Error → σ → Option GoError × σ

/-- How one invocation of the work ends: it returns `(ret, e)` or it panics. -/
inductive WorkResult (V : Type) where
  | returns (ret : Option V) (e : Option GoError)
  | panics (v : PanicValue)
deriving DecidableEq, Repr

/-- The type of the argument `f` of `Transact`. -/
abbrev Work (V σ : Type) := Transaction → σ → WorkResult V × σ

/-- How a call ends: it returns a value or it panics. -/
inductive Outcome (α : Type) where
  | returned (a : α)
  | panicked (v : PanicValue)
deriving DecidableEq, Repr

/-- A run of an operation: its outcome (`none` when the fuel ran out), the calls
it made, and the world state it left. -/
structure Run (α σ : Type) where
  outcome : Option (Outcome α)
  trace : List Event
  final : σ
deriving DecidableEq, Repr

/-- The run `r` preceded by the calls `evs`. -/
def Run.after {α σ : Type} (evs : List Event) (r : Run α σ) : Run α σ :=
  ⟨r.outcome, evs ++ r.trace, r.final⟩

/-- The outcome of `r` passed through `k`, which stands for the statements that
follow a call in the caller; a panic and an exhausted run pass unchanged. -/
def Run.andThen {α β σ : Type} (r : Run α σ) (k : α → Outcome β) : Run β σ :=
  ⟨match r.outcome with
    | none => none
    | some (.panicked v) => some (.panicked v)
    | some (.returned a) => some (k a),
   r.trace, r.final⟩

/-- A Go slice; `none` is the nil slice. -/
abbrev Slice (α : Type) := Option (List α)

/-- Modelled from the spec: the type `KeySelector`, declared outside
database.go; a reference key, a direction flag and an offset. -/
structure KeySelector where
  Key : Slice Nat
  OrEqual : Bool
  Offset : Int
deriving DecidableEq, Repr

/-- Modelled from the spec: the type `RangeOptions`, declared outside
database.go; a limit, a streaming mode and a direction. -/
structure RangeOptions where
  Limit : Int
  StreamingMode : Int
  Reverse : Bool
deriving DecidableEq, Repr

/-- Modelled from the spec: the type `KeyValue`, declared outside database.go;
one key with its value. -/
structure KeyValue where
  Key : Slice Nat
  Value : Slice Nat
deriving DecidableEq, Repr

/-- Modelled from the spec: the type `FutureNil`, declared outside database.go;
the handle of a pending operation without a value. -/
structure FutureNil where
  f : Nat
deriving DecidableEq, Repr

/-- The dynamic types of the `interface{}` values that the Database-level
operations pass through `Transact`. -/
inductive Value where
  | bytes (v : Slice Nat)
  | keyValues (v : Slice KeyValue)
  | futureNil (w : FutureNil)
  | valueWatch (value : Slice Nat) (watch : FutureNil)
deriving DecidableEq, Repr

/-- The methods of `Transaction` that the Database-level operations call inside
their work, declared outside database.go.  A read stands for the call followed
by `GetOrPanic` or `GetSliceOrPanic`: the value, or the `*Error` that the
accessor panics with. -/
structure TransactionOps (σ : Type) where
  Get : Transaction → Slice Nat → σ → Except Error (Slice Nat) × σ
  GetKey : Transaction → KeySelector → σ → Except Error (Slice Nat) × σ
  GetRange : Transaction → Slice Nat → Slice Nat → RangeOptions → σ →
    Except Error (Slice KeyValue) × σ
  GetRangeSelector : Transaction → KeySelector → KeySelector → RangeOptions → σ →
    Except Error (Slice KeyValue) × σ
  GetRangeStartsWith : Transaction → Slice Nat → RangeOptions → σ →
    Except Error (Slice KeyValue) × σ
  Set : Transaction → Slice Nat → Slice Nat → σ → σ
  Clear : Transaction → Slice Nat → σ → σ
  ClearRange : Transaction → Slice Nat → Slice Nat → σ → σ
  ClearRangeStartsWith : Transaction → Slice Nat → σ → σ
  Watch : Transaction → Slice Nat → σ → FutureNil × σ

namespace Database

/-! ## `CreateTransaction` and `Transact` -/

/-- Method `Database.CreateTransaction`: the pair `(*Transaction, error)`. -/
def CreateTransaction {σ : Type} (errorClientInvalidOperation : Int) (B : Backend σ)
    (d : Database) (s : σ) : (Option Transaction × Option GoError) × List Event × σ :=
  match d.d with
  -- if d.d == nil { return nil, &Error{errorClientInvalidOperation} }
  | none => ((none, some (.fdbError ⟨errorClientInvalidOperation⟩)), [], s)
  | some h =>
    match B.fdb_database_create_transaction h s with
    | ((err, outt), s1) =>
      -- if err != 0 { return nil, &Error{err} }
      if err ≠ 0 then ((none, some (.fdbError ⟨err⟩)), [.createTransaction h], s1)
      -- return t, nil
      else ((some ⟨outt⟩, none), [.createTransaction h], s1)

/-- The closure `wrapped` of `Transact`, with its deferred `recover`.  `ret` and
`e` are the captured result variables on entry; the outcome carries their
values on exit, or the panic that the deferred function raises again. -/
def wrapped {V σ : Type} (B : Backend σ) (f : Work V σ) (tr : Transaction)
    (ret : Option V) (e : Option GoError) (s : σ) :
    Outcome (Option V × Option GoError) × List Event × σ :=
  match f tr s with
  -- f(tr) panics: the deferred function recovers r
  | (.panics v, s1) =>
    match v with
    -- panic(nil): recover() stops the panic and returns nil, the guard r != nil
    -- is false, and wrapped returns with ret and e as they were on entry
    | .nil => (.returned (ret, e), [.work tr], s1)
    -- case *Error: e = r (ret keeps the value it had on entry)
    | .fdbError r => (.returned (ret, some (.fdbError r)), [.work tr], s1)
    -- default: panic(r)
    | v => (.panicked v, [.work tr], s1)
  -- ret, e = f(tr); if e != nil { return }
  | (.returns ret1 (some e1), s1) => (.returned (ret1, some e1), [.work tr], s1)
  -- e = tr.Commit().GetWithError()
  | (.returns ret1 none, s1) =>
    match B.Commit tr s1 with
    | (e2, s2) => (.returned (ret1, e2), [.work tr, .commit tr], s2)

/-- The `for` loop of `Transact`, one unit of fuel per pass. -/
def retryLoop {V σ : Type} (B : Backend σ) (f : Work V σ) (tr : Transaction) :
    Nat → Option V → Option GoError → σ → Run (Option V × Option GoError) σ
  | 0, _, _, s => ⟨none, [], s⟩
  | fuel + 1, ret, e, s =>
    match wrapped B f tr ret e s with
    | (.panicked v, evs, s1) => ⟨some (.panicked v), evs, s1⟩
    -- if e == nil { return }
    | (.returned (ret1, none), evs, s1) => ⟨some (.returned (ret1, none)), evs, s1⟩
    -- the type switch has no case for it; if e != nil { return }
    | (.returned (ret1, some (.otherError x)), evs, s1) =>
      ⟨some (.returned (ret1, some (.otherError x))), evs, s1⟩
    -- case *Error: e = tr.OnError(ep).GetWithError()
    | (.returned (ret1, some (.fdbError ep)), evs, s1) =>
      match B.OnError tr ep s1 with
      -- if e != nil { return }
      | (some e2, s2) => ⟨some (.returned (ret1, some e2)), evs ++ [.onError tr ep], s2⟩
      -- otherwise take another pass, on the same tr
      | (none, s2) => (retryLoop B f tr fuel ret1 none s2).after (evs ++ [.onError tr ep])

/-- Method `Database.Transact`.  The pair `(nil, nil)` is never returned by
`CreateTransaction`; on it the work would receive a nil pointer. -/
def Transact {V σ : Type} (errorClientInvalidOperation : Int) (B : Backend σ)
    (d : Database) (f : Work V σ) (fuel : Nat) (s : σ) :
    Run (Option V × Option GoError) σ :=
  match d.d with
  | none => ⟨some (.returned (none, some (.fdbError ⟨errorClientInvalidOperation⟩))), [], s⟩
  | some _ =>
    -- tr, e := d.CreateTransaction(); e is the named result
    match CreateTransaction errorClientInvalidOperation B d s with
    -- if e != nil { return }, with ret still nil
    | ((_, some e), evs, s1) => ⟨some (.returned (none, some e)), evs, s1⟩
    -- for { wrapped(); ... }
    | ((some tr, none), evs, s1) => (retryLoop B f tr fuel none none s1).after evs
    | ((none, none), evs, s1) => ⟨some (.panicked .nilDereference), evs, s1⟩

/-! ## The Database-level operations -/

/-- A work that reads a value with `GetOrPanic` and returns it with a nil error. -/
def readWork {σ α : Type} (read : Transaction → σ → Except Error α × σ)
    (wrap : α → Value) : Work Value σ :=
  fun tr s0 =>
    match read tr s0 with
    | (.ok v, s1) => (.returns (some (wrap v)) none, s1)
    | (.error e, s1) => (.panics (.fdbError e), s1)

/-- A work that buffers one mutation and returns `nil, nil`. -/
def writeWork {σ : Type} (write : Transaction → σ → σ) : Work Value σ :=
  fun tr s0 => (.returns none none, write tr s0)

/-- The statements after `Transact` in the operations that return `[]byte`. -/
def asBytes : Option Value × Option GoError → Outcome (Slice Nat × Option GoError)
  | (_, some e) => .returned (none, some e)
  | (some (.bytes v), none) => .returned (v, none)
  | (_, none) => .panicked .typeAssertion

/-- The statements after `Transact` in the operations that return `[]KeyValue`. -/
def asKeyValues : Option Value × Option GoError → Outcome (Slice KeyValue × Option GoError)
  | (_, some e) => .returned (none, some e)
  | (some (.keyValues v), none) => .returned (v, none)
  | (_, none) => .panicked .typeAssertion

/-- The statements after `Transact` in the operations that return only an error. -/
def asError : Option Value × Option GoError → Outcome (Option GoError)
  | (_, some e) => .returned (some e)
  | (_, none) => .returned none

/-- The statements after `Transact` in the operations that return `*FutureNil`. -/
def asFutureNil : Option Value × Option GoError → Outcome (Option FutureNil × Option GoError)
  | (_, some e) => .returned (none, some e)
  | (some (.futureNil w), none) => .returned (some w, none)
  | (_, none) => .panicked .typeAssertion

/-- The statements after `Transact` in `GetAndWatch`. -/
def asValueWatch : Option Value × Option GoError →
    Outcome (Slice Nat × Option FutureNil × Option GoError)
  | (_, some e) => .returned (none, none, some e)
  | (some (.valueWatch v w), none) => .returned (v, some w, none)
  | (_, none) => .panicked .typeAssertion

/-- Method `Database.Get`. -/
def Get {σ : Type} (errorClientInvalidOperation : Int) (B : Backend σ)
    (T : TransactionOps σ) (d : Database) (key : Slice Nat) (fuel : Nat) (s : σ) :
    Run (Slice Nat × Option GoError) σ :=
  match d.d with
  | none => ⟨some (.returned (none, some (.fdbError ⟨errorClientInvalidOperation⟩))), [], s⟩
  | some _ =>
    (Transact errorClientInvalidOperation B d
      (readWork (fun tr => T.Get tr key) .bytes) fuel s).andThen asBytes

/-- Method `Database.GetKey`. -/
def GetKey {σ : Type} (errorClientInvalidOperation : Int) (B : Backend σ)
    (T : TransactionOps σ) (d : Database) (sel : KeySelector) (fuel : Nat) (s : σ) :
    Run (Slice Nat × Option GoError) σ :=
  match d.d with
  | none => ⟨some (.returned (none, some (.fdbError ⟨errorClientInvalidOperation⟩))), [], s⟩
  | some _ =>
    (Transact errorClientInvalidOperation B d
      (readWork (fun tr => T.GetKey tr sel) .bytes) fuel s).andThen asBytes

/-- Method `Database.GetRange`. -/
def GetRange {σ : Type} (errorClientInvalidOperation : Int) (B : Backend σ)
    (T : TransactionOps σ) (d : Database) (begin_ end_ : Slice Nat)
    (options : RangeOptions) (fuel : Nat) (s : σ) :
    Run (Slice KeyValue × Option GoError) σ :=
  match d.d with
  | none => ⟨some (.returned (none, some (.fdbError ⟨errorClientInvalidOperation⟩))), [], s⟩
  | some _ =>
    (Transact errorClientInvalidOperation B d
      (readWork (fun tr => T.GetRange tr begin_ end_ options) .keyValues) fuel s).andThen
        asKeyValues

/-- Method `Database.GetRangeSelector`. -/
def GetRangeSelector {σ : Type} (errorClientInvalidOperation : Int) (B : Backend σ)
    (T : TransactionOps σ) (d : Database) (begin_ end_ : KeySelector)
    (options : RangeOptions) (fuel : Nat) (s : σ) :
    Run (Slice KeyValue × Option GoError) σ :=
  match d.d with
  | none => ⟨some (.returned (none, some (.fdbError ⟨errorClientInvalidOperation⟩))), [], s⟩
  | some _ =>
    (Transact errorClientInvalidOperation B d
      (readWork (fun tr => T.GetRangeSelector tr begin_ end_ options) .keyValues)
      fuel s).andThen asKeyValues

/-- Method `Database.GetRangeStartsWith`. -/
def GetRangeStartsWith {σ : Type} (errorClientInvalidOperation : Int) (B : Backend σ)
    (T : TransactionOps σ) (d : Database) (pfx : Slice Nat)
    (options : RangeOptions) (fuel : Nat) (s : σ) :
    Run (Slice KeyValue × Option GoError) σ :=
  match d.d with
  | none => ⟨some (.returned (none, some (.fdbError ⟨errorClientInvalidOperation⟩))), [], s⟩
  | some _ =>
    (Transact errorClientInvalidOperation B d
      (readWork (fun tr => T.GetRangeStartsWith tr pfx options) .keyValues)
      fuel s).andThen asKeyValues

/-- Method `Database.Set`. -/
def Set {σ : Type} (errorClientInvalidOperation : Int) (B : Backend σ)
    (T : TransactionOps σ) (d : Database) (key value : Slice Nat) (fuel : Nat) (s : σ) :
    Run (Option GoError) σ :=
  match d.d with
  | none => ⟨some (.returned (some (.fdbError ⟨errorClientInvalidOperation⟩))), [], s⟩
  | some _ =>
    (Transact errorClientInvalidOperation B d
      (writeWork (fun tr => T.Set tr key value)) fuel s).andThen asError

/-- Method `Database.Clear`. -/
def Clear {σ : Type} (errorClientInvalidOperation : Int) (B : Backend σ)
    (T : TransactionOps σ) (d : Database) (key : Slice Nat) (fuel : Nat) (s : σ) :
    Run (Option GoError) σ :=
  match d.d with
  | none => ⟨some (.returned (some (.fdbError ⟨errorClientInvalidOperation⟩))), [], s⟩
  | some _ =>
    (Transact errorClientInvalidOperation B d
      (writeWork (fun tr => T.Clear tr key)) fuel s).andThen asError

/-- Method `Database.ClearRange`. -/
def ClearRange {σ : Type} (errorClientInvalidOperation : Int) (B : Backend σ)
    (T : TransactionOps σ) (d : Database) (begin_ end_ : Slice Nat) (fuel : Nat) (s : σ) :
    Run (Option GoError) σ :=
  match d.d with
  | none => ⟨some (.returned (some (.fdbError ⟨errorClientInvalidOperation⟩))), [], s⟩
  | some _ =>
    (Transact errorClientInvalidOperation B d
      (writeWork (fun tr => T.ClearRange tr begin_ end_)) fuel s).andThen asError

/-- Method `Database.ClearRangeStartsWith`. -/
def ClearRangeStartsWith {σ : Type} (errorClientInvalidOperation : Int) (B : Backend σ)
    (T : TransactionOps σ) (d : Database) (pfx : Slice Nat) (fuel : Nat) (s : σ) :
    Run (Option GoError) σ :=
  match d.d with
  | none => ⟨some (.returned (some (.fdbError ⟨errorClientInvalidOperation⟩))), [], s⟩
  | some _ =>
    (Transact errorClientInvalidOperation B d
      (writeWork (fun tr => T.ClearRangeStartsWith tr pfx)) fuel s).andThen asError

/-- Method `Database.GetAndWatch`. -/
def GetAndWatch {σ : Type} (errorClientInvalidOperation : Int) (B : Backend σ)
    (T : TransactionOps σ) (d : Database) (key : Slice Nat) (fuel : Nat) (s : σ) :
    Run (Slice Nat × Option FutureNil × Option GoError) σ :=
  match d.d with
  | none =>
    ⟨some (.returned (none, none, some (.fdbError ⟨errorClientInvalidOperation⟩))), [], s⟩
  | some _ =>
    (Transact errorClientInvalidOperation B d
      (fun tr s0 =>
        match T.Get tr key s0 with
        | (.error e, s1) => (.panics (.fdbError e), s1)
        | (.ok v, s1) =>
          match T.Watch tr key s1 with
          | (w, s2) => (.returns (some (.valueWatch v w)) none, s2))
      fuel s).andThen asValueWatch

/-- Method `Database.SetAndWatch`. -/
def SetAndWatch {σ : Type} (errorClientInvalidOperation : Int) (B : Backend σ)
    (T : TransactionOps σ) (d : Database) (key value : Slice Nat) (fuel : Nat) (s : σ) :
    Run (Option FutureNil × Option GoError) σ :=
  match d.d with
  | none => ⟨some (.returned (none, some (.fdbError ⟨errorClientInvalidOperation⟩))), [], s⟩
  | some _ =>
    (Transact errorClientInvalidOperation B d
      (fun tr s0 =>
        match T.Watch tr key (T.Set tr key value s0) with
        | (w, s1) => (.returns (some (.futureNil w)) none, s1))
      fuel s).andThen asFutureNil

/-- Method `Database.ClearAndWatch`. -/
def ClearAndWatch {σ : Type} (errorClientInvalidOperation : Int) (B : Backend σ)
    (T : TransactionOps σ) (d : Database) (key : Slice Nat) (fuel : Nat) (s : σ) :
    Run (Option FutureNil × Option GoError) σ :=
  match d.d with
  | none => ⟨some (.returned (none, some (.fdbError ⟨errorClientInvalidOperation⟩))), [], s⟩
  | some _ =>
    (Transact errorClientInvalidOperation B d
      (fun tr s0 =>
        match T.Watch tr key (T.Clear tr key s0) with
        | (w, s1) => (.returns (some (.futureNil w)) none, s1))
      fuel s).andThen asFutureNil

end Database

/-! ## Counting calls -/

/-- Number of invocations of the work in a trace. -/
def workCalls (evs : List Event) : Nat :=
  evs.countP fun ev => match ev with
    | .work _ => true
    | _ => false

/-- Number of `Commit` calls in a trace. -/
def commitCalls (evs : List Event) : Nat :=
  evs.countP fun ev => match ev with
    | .commit _ => true
    | _ => false

/-- Number of `OnError` calls in a trace. -/
def onErrorCalls (evs : List Event) : Nat :=
  evs.countP fun ev => match ev with
    | .onError _ _ => true
    | _ => false

/-- Number of native create-transaction calls in a trace. -/
def createCalls (evs : List Event) : Nat :=
  evs.countP fun ev => match ev with
    | .createTransaction _ => true
    | _ => false

/-! ## Describing the environment of a run -/

/-- The attempt that starts in world state `s` fails with the backend error `E`
and leaves the state `s1`: the work returns `E`, or panics with `E`, or returns
a nil error and `Commit` fails with `E`. -/
inductive AttemptFails {V σ : Type} (B : Backend σ) (f : Work V σ) (tr : Transaction) :
    σ → Error → σ → Prop where
  | workReturns {s s1 : σ} {r : Option V} {E : Error} :
      f tr s = (.returns r (some (.fdbError E)), s1) → AttemptFails B f tr s E s1
  | workPanics {s s1 : σ} {E : Error} :
      f tr s = (.panics (.fdbError E), s1) → AttemptFails B f tr s E s1
  | commitFails {s s1 s2 : σ} {r : Option V} {E : Error} :
      f tr s = (.returns r none, s1) → B.Commit tr s1 = (some (.fdbError E), s2) →
      AttemptFails B f tr s E s2

/-- Starting in world state `s`, each of the next `k` attempts fails with a
backend error for which `OnError` succeeds; `s1` is the state in which attempt
`k + 1` starts. -/
inductive Retried {V σ : Type} (B : Backend σ) (f : Work V σ) (tr : Transaction) :
    Nat → σ → σ → Prop where
  | zero {s : σ} : Retried B f tr 0 s s
  | succ {k : Nat} {s s1 s2 s3 : σ} {E : Error} :
      AttemptFails B f tr s E s1 → B.OnError tr E s1 = (none, s2) →
      Retried B f tr k s2 s3 → Retried B f tr (k + 1) s s3

/-! ## A scripted world for concrete runs -/

/-- A backend over a counter of retried attempts: creation answers `create`,
`Commit` and `OnError` answer by the counter, and `OnError` advances it. -/
def scriptedBackend (create : Int × Nat) (commit onError : Nat → Option GoError) :
    Backend Nat where
  fdb_database_create_transaction := fun _ n => (create, n)
  Commit := fun _ n => (commit n, n)
  OnError := fun _ _ n => (onError n, n + 1)

/-- A work that answers by the counter of retried attempts. -/
def scriptedWork (script : Nat → WorkResult Nat) : Work Nat Nat :=
  fun _ n => (script n, n)

/-- Backend of the concrete runs: creation succeeds with handle 7, `Commit`
fails once, in the second attempt, and `OnError` succeeds three times and then fails. -/
def demoBackend : Backend Nat :=
  scriptedBackend (0, 7)
    (fun n => if n = 1 then some (.fdbError ⟨1021⟩) else none)
    (fun n => if n < 3 then none else some (.fdbError ⟨1031⟩))

/-- Work of the concrete runs: returns a backend error, then returns a result
(whose `Commit` fails), then panics with a backend error, and ends its fourth
invocation as `fourth` says. -/
def demoWork (fourth : WorkResult Nat) : Work Nat Nat :=
  scriptedWork fun n =>
    if n = 0 then .returns (some 5) (some (.fdbError ⟨1020⟩))
    else if n = 1 then .returns (some 11) none
    else if n = 2 then .panics (.fdbError ⟨1007⟩)
    else fourth

/-- A backend that hands out a new native handle on every creation call.  The
world state counts the handles created and the attempts retried; `Commit`
succeeds and `OnError` answers by the number of attempts retried. -/
def freshHandleBackend (onError : Nat → Option GoError) : Backend (Nat × Nat) where
  fdb_database_create_transaction := fun _ n => ((0, 100 + n.1), (n.1 + 1, n.2))
  Commit := fun _ n => (none, n)
  OnError := fun _ _ n => (onError n.2, (n.1, n.2 + 1))

/-- A work that meets one conflict: it returns a backend error on the first
attempt and a result on the next. -/
def conflictOnce : Work Nat (Nat × Nat) :=
  fun _ n =>
    (if n.2 = 0 then .returns none (some (.fdbError ⟨1020⟩)) else .returns (some 1) none, n)

/-- Work of a concrete pair of runs: returns `(5, Error{1020})` on the first attempt and
panics with `Error{1007}` on every later one. -/
def panicLater : Work Nat Nat :=
  scriptedWork fun n =>
    if n = 0 then .returns (some 5) (some (.fdbError ⟨1020⟩)) else .panics (.fdbError ⟨1007⟩)

/-- Work of a concrete pair of runs: as `panicLater`, with each panic replaced by the
return of `(nil, Error{1007})`. -/
def returnLater : Work Nat Nat :=
  scriptedWork fun n =>
    if n = 0 then .returns (some 5) (some (.fdbError ⟨1020⟩))
    else .returns none (some (.fdbError ⟨1007⟩))

/-- The transaction an event is about, if any. -/
def Event.transaction? : Event → Option Transaction
  | .createTransaction _ => none
  | .work tr => some tr
  | .commit tr => some tr
  | .onError tr _ => some tr

/-- The run `r` without its result value: calls, final state, the panic or the
returned error are kept. -/
def Run.eraseResult {V σ : Type} (r : Run (Option V × Option GoError) σ) :
    Run (Option V × Option GoError) σ :=
  ⟨match r.outcome with
    | some (.returned (_, e)) => some (.returned (none, e))
    | o => o,
   r.trace, r.final⟩

/-- The run `r` without the result value that comes with a non-nil error. -/
def Run.eraseFailedResult {V σ : Type} (r : Run (Option V × Option GoError) σ) :
    Run (Option V × Option GoError) σ :=
  ⟨match r.outcome with
    | some (.returned (_, some e)) => some (.returned (none, some e))
    | o => o,
   r.trace, r.final⟩

/-- The work `g` is the work `f` with some panics that carry a `*Error` replaced
by a return of that error: in every state the two end alike, or `f` panics with
a `*Error` that `g` returns as its error, leaving the same state. -/
def PanicAsReturn {V σ : Type} (f g : Work V σ) : Prop :=
  ∀ (tr : Transaction) (s : σ), f tr s = g tr s ∨
    ∃ (E : Error) (r : Option V) (s1 : σ),
      f tr s = (.panics (.fdbError E), s1) ∧ g tr s = (.returns r (some (.fdbError E)), s1)

/-! ## Lemmas on the loop -/

open Database

theorem Run.after_after {α σ : Type} (xs ys : List Event) (r : Run α σ) :
    (r.after ys).after xs = r.after (xs ++ ys) := by
  simp [Run.after, List.append_assoc]

theorem workCalls_append (xs ys : List Event) :
    workCalls (xs ++ ys) = workCalls xs + workCalls ys := by
  simp [workCalls, List.countP_append]

theorem commitCalls_append (xs ys : List Event) :
    commitCalls (xs ++ ys) = commitCalls xs + commitCalls ys := by
  simp [commitCalls, List.countP_append]

theorem onErrorCalls_append (xs ys : List Event) :
    onErrorCalls (xs ++ ys) = onErrorCalls xs + onErrorCalls ys := by
  simp [onErrorCalls, List.countP_append]

theorem createCalls_append (xs ys : List Event) :
    createCalls (xs ++ ys) = createCalls xs + createCalls ys := by
  simp [createCalls, List.countP_append]

/-- The method `CreateTransaction` returns a transaction or an error, never
`(nil, nil)`: the last branch of `Transact` is not reached. -/
theorem CreateTransaction_result {σ : Type} (c : Int) (B : Backend σ) (d : Database) (s : σ) :
    (CreateTransaction c B d s).1 ≠ (none, none) := by
  unfold CreateTransaction
  cases d.d with
  | none => simp
  | some h =>
    by_cases herr : (B.fdb_database_create_transaction h s).1.1 = 0 <;> simp [herr]

/-- One pass of the loop over an attempt that fails with a backend error for
which `OnError` succeeds: the loop goes on with one unit of fuel less. -/
theorem retryLoop_attemptFails {V σ : Type} {B : Backend σ} {f : Work V σ}
    {tr : Transaction} {s s1 s2 : σ} {E : Error}
    (h : AttemptFails B f tr s E s1) (hE : B.OnError tr E s1 = (none, s2))
    (m : Nat) (ret : Option V) :
    ∃ evs ret1, retryLoop B f tr (m + 1) ret none s
        = (retryLoop B f tr m ret1 none s2).after evs ∧
      workCalls evs = 1 ∧ onErrorCalls evs = 1 ∧ createCalls evs = 0 := by
  cases h with
  | workReturns hf =>
    rename_i r
    exact ⟨[.work tr, .onError tr E], r, by simp [retryLoop, wrapped, hf, hE], rfl, rfl, rfl⟩
  | workPanics hf =>
    exact ⟨[.work tr, .onError tr E], ret, by simp [retryLoop, wrapped, hf, hE], rfl, rfl, rfl⟩
  | commitFails hf hc =>
    rename_i sm r
    exact ⟨[.work tr, .commit tr, .onError tr E], r,
      by simp [retryLoop, wrapped, hf, hc, hE], rfl, rfl, rfl⟩

/-- After `k` retried attempts the loop stands at attempt `k + 1` with `k`
units of fuel used, having invoked the work and `OnError` `k` times each. -/
theorem retryLoop_retried {V σ : Type} {B : Backend σ} {f : Work V σ}
    {tr : Transaction} {k : Nat} {s sk : σ} (h : Retried B f tr k s sk) :
    ∀ (m : Nat) (ret : Option V),
      ∃ evs ret1, retryLoop B f tr (k + m) ret none s
          = (retryLoop B f tr m ret1 none sk).after evs ∧
        workCalls evs = k ∧ onErrorCalls evs = k ∧ createCalls evs = 0 := by
  induction h with
  | zero =>
    intro m ret
    exact ⟨[], ret, by simp [Run.after], rfl, rfl, rfl⟩
  | @succ k0 _ _ _ _ _ ha hE _ ih =>
    intro m ret
    obtain ⟨evs1, ret1, h1, w1, o1, c1⟩ := retryLoop_attemptFails ha hE (k0 + m) ret
    obtain ⟨evs2, ret2, h2, w2, o2, c2⟩ := ih m ret1
    refine ⟨evs1 ++ evs2, ret2, ?_, ?_, ?_, ?_⟩
    · have hk : k0 + 1 + m = k0 + m + 1 := by omega
      rw [hk, h1, h2, Run.after_after]
    · rw [workCalls_append, w1, w2]; omega
    · rw [onErrorCalls_append, o1, o2]; omega
    · rw [createCalls_append, c1, c2]

/-- Every call the loop makes is about the one transaction it was started on;
in particular the loop makes no creation call. -/
theorem retryLoop_trace {V σ : Type} (B : Backend σ) (f : Work V σ) (tr : Transaction) :
    ∀ (fuel : Nat) (ret : Option V) (s : σ),
      ∀ ev ∈ (retryLoop B f tr fuel ret none s).trace, ev.transaction? = some tr := by
  intro fuel
  induction fuel with
  | zero => intro ret s ev hev; simp [retryLoop] at hev
  | succ n ih =>
    intro ret s ev hev
    rcases hfs : f tr s with ⟨wr, s1⟩
    cases wr with
    | panics v =>
      cases v with
      | nil => simp [retryLoop, wrapped, hfs] at hev; subst hev; rfl
      | fdbError r =>
        rcases hoe : B.OnError tr r s1 with ⟨e2, s2⟩
        cases e2 with
        | none =>
          simp [retryLoop, wrapped, hfs, hoe, Run.after] at hev
          rcases hev with rfl | rfl | hev
          · rfl
          · rfl
          · exact ih _ _ ev hev
        | some e2 =>
          simp [retryLoop, wrapped, hfs, hoe] at hev
          rcases hev with rfl | rfl <;> rfl
      | typeAssertion => simp [retryLoop, wrapped, hfs] at hev; subst hev; rfl
      | nilDereference => simp [retryLoop, wrapped, hfs] at hev; subst hev; rfl
      | other x => simp [retryLoop, wrapped, hfs] at hev; subst hev; rfl
    | returns ret1 e1 =>
      cases e1 with
      | some e1 =>
        cases e1 with
        | otherError x => simp [retryLoop, wrapped, hfs] at hev; subst hev; rfl
        | fdbError r =>
          rcases hoe : B.OnError tr r s1 with ⟨e2, s2⟩
          cases e2 with
          | none =>
            simp [retryLoop, wrapped, hfs, hoe, Run.after] at hev
            rcases hev with rfl | rfl | hev
            · rfl
            · rfl
            · exact ih _ _ ev hev
          | some e2 =>
            simp [retryLoop, wrapped, hfs, hoe] at hev
            rcases hev with rfl | rfl <;> rfl
      | none =>
        rcases hcm : B.Commit tr s1 with ⟨e2, s2⟩
        cases e2 with
        | none =>
          simp [retryLoop, wrapped, hfs, hcm] at hev
          rcases hev with rfl | rfl <;> rfl
        | some e2 =>
          cases e2 with
          | otherError x =>
            simp [retryLoop, wrapped, hfs, hcm] at hev
            rcases hev with rfl | rfl <;> rfl
          | fdbError r =>
            rcases hoe : B.OnError tr r s2 with ⟨e3, s3⟩
            cases e3 with
            | none =>
              simp [retryLoop, wrapped, hfs, hcm, hoe, Run.after] at hev
              rcases hev with rfl | rfl | rfl | hev
              · rfl
              · rfl
              · rfl
              · exact ih _ _ ev hev
            | some e3 =>
              simp [retryLoop, wrapped, hfs, hcm, hoe] at hev
              rcases hev with rfl | rfl | rfl <;> rfl

/-- A pass of the loop starts by invoking the work. -/
theorem retryLoop_trace_head {V σ : Type} (B : Backend σ) (f : Work V σ) (tr : Transaction)
    (m : Nat) (ret : Option V) (s : σ) :
    (retryLoop B f tr (m + 1) ret none s).trace.head? = some (.work tr) := by
  rcases hfs : f tr s with ⟨wr, s1⟩
  cases wr with
  | panics v =>
    cases v with
    | fdbError r =>
      rcases hoe : B.OnError tr r s1 with ⟨e2, s2⟩
      cases e2 <;> simp [retryLoop, wrapped, hfs, hoe, Run.after]
    | nil => simp [retryLoop, wrapped, hfs]
    | typeAssertion => simp [retryLoop, wrapped, hfs]
    | nilDereference => simp [retryLoop, wrapped, hfs]
    | other x => simp [retryLoop, wrapped, hfs]
  | returns ret1 e1 =>
    cases e1 with
    | some e1 =>
      cases e1 with
      | otherError x => simp [retryLoop, wrapped, hfs]
      | fdbError r =>
        rcases hoe : B.OnError tr r s1 with ⟨e2, s2⟩
        cases e2 <;> simp [retryLoop, wrapped, hfs, hoe, Run.after]
    | none =>
      rcases hcm : B.Commit tr s1 with ⟨e2, s2⟩
      cases e2 with
      | none => simp [retryLoop, wrapped, hfs, hcm]
      | some e2 =>
        cases e2 with
        | otherError x => simp [retryLoop, wrapped, hfs, hcm]
        | fdbError r =>
          rcases hoe : B.OnError tr r s2 with ⟨e3, s3⟩
          cases e3 <;> simp [retryLoop, wrapped, hfs, hcm, hoe, Run.after]

theorem Run.eraseResult_after {V σ : Type} (evs : List Event)
    (r : Run (Option V × Option GoError) σ) :
    (r.after evs).eraseResult = r.eraseResult.after evs := rfl

theorem Run.eraseFailedResult_after {V σ : Type} (evs : List Event)
    (r : Run (Option V × Option GoError) σ) :
    (r.after evs).eraseFailedResult = r.eraseFailedResult.after evs := rfl

/-- Replacing panics that carry a `*Error` by returns of that error changes
nothing in a run of the loop but the result value; the value of `ret` on entry
matters no more than that. -/
theorem retryLoop_panicAsReturn {V σ : Type} (B : Backend σ) {f g : Work V σ}
    (hfg : PanicAsReturn f g) (tr : Transaction) :
    ∀ (fuel : Nat) (retf retg : Option V) (s : σ),
      (retryLoop B f tr fuel retf none s).eraseResult
        = (retryLoop B g tr fuel retg none s).eraseResult := by
  intro fuel
  induction fuel with
  | zero => intro retf retg s; rfl
  | succ n ih =>
    intro retf retg s
    rcases hfg tr s with heq | ⟨E, r, s1, hf, hg⟩
    · rcases hgs : g tr s with ⟨wr, s1⟩
      rw [hgs] at heq
      cases wr with
      | panics v =>
        cases v with
        | nil => simp [retryLoop, wrapped, heq, hgs, Run.eraseResult]
        | fdbError r =>
          rcases hoe : B.OnError tr r s1 with ⟨e2, s2⟩
          cases e2 with
          | none =>
            simp only [retryLoop, wrapped, heq, hgs, hoe, Run.eraseResult_after]
            rw [ih retf retg s2]
          | some e2 => simp [retryLoop, wrapped, heq, hgs, hoe, Run.eraseResult]
        | typeAssertion => simp [retryLoop, wrapped, heq, hgs]
        | nilDereference => simp [retryLoop, wrapped, heq, hgs]
        | other x => simp [retryLoop, wrapped, heq, hgs]
      | returns ret1 e1 =>
        cases e1 with
        | some e1 =>
          cases e1 with
          | otherError x => simp [retryLoop, wrapped, heq, hgs]
          | fdbError r =>
            rcases hoe : B.OnError tr r s1 with ⟨e2, s2⟩
            cases e2 with
            | none =>
              simp only [retryLoop, wrapped, heq, hgs, hoe, Run.eraseResult_after]
              rw [ih ret1 ret1 s2]
            | some e2 => simp [retryLoop, wrapped, heq, hgs, hoe]
        | none =>
          rcases hcm : B.Commit tr s1 with ⟨e2, s2⟩
          cases e2 with
          | none => simp [retryLoop, wrapped, heq, hgs, hcm]
          | some e2 =>
            cases e2 with
            | otherError x => simp [retryLoop, wrapped, heq, hgs, hcm]
            | fdbError r =>
              rcases hoe : B.OnError tr r s2 with ⟨e3, s3⟩
              cases e3 with
              | none =>
                simp only [retryLoop, wrapped, heq, hgs, hcm, hoe, Run.eraseResult_after]
                rw [ih ret1 ret1 s3]
              | some e3 => simp [retryLoop, wrapped, heq, hgs, hcm, hoe]
    · rcases hoe : B.OnError tr E s1 with ⟨e2, s2⟩
      cases e2 with
      | none =>
        simp only [retryLoop, wrapped, hf, hg, hoe, Run.eraseResult_after]
        rw [ih retf r s2]
      | some e2 => simp [retryLoop, wrapped, hf, hg, hoe, Run.eraseResult]

/-- When the work never panics with nil, replacing panics that carry a `*Error`
by returns of that error changes nothing in a run of the loop but the result
value that comes with a non-nil error. -/
theorem retryLoop_panicAsReturn_of_no_nil {V σ : Type} (B : Backend σ) {f g : Work V σ}
    (hfg : PanicAsReturn f g)
    (hnil : ∀ (tr : Transaction) (s s1 : σ), f tr s ≠ (.panics .nil, s1))
    (tr : Transaction) :
    ∀ (fuel : Nat) (retf retg : Option V) (s : σ),
      (retryLoop B f tr fuel retf none s).eraseFailedResult
        = (retryLoop B g tr fuel retg none s).eraseFailedResult := by
  intro fuel
  induction fuel with
  | zero => intro retf retg s; rfl
  | succ n ih =>
    intro retf retg s
    rcases hfg tr s with heq | ⟨E, r, s1, hf, hg⟩
    · rcases hgs : g tr s with ⟨wr, s1⟩
      rw [hgs] at heq
      cases wr with
      | panics v =>
        cases v with
        | nil => exact absurd heq (hnil tr s s1)
        | fdbError r =>
          rcases hoe : B.OnError tr r s1 with ⟨e2, s2⟩
          cases e2 with
          | none =>
            simp only [retryLoop, wrapped, heq, hgs, hoe, Run.eraseFailedResult_after]
            rw [ih retf retg s2]
          | some e2 => simp [retryLoop, wrapped, heq, hgs, hoe, Run.eraseFailedResult]
        | typeAssertion => simp [retryLoop, wrapped, heq, hgs]
        | nilDereference => simp [retryLoop, wrapped, heq, hgs]
        | other x => simp [retryLoop, wrapped, heq, hgs]
      | returns ret1 e1 =>
        cases e1 with
        | some e1 =>
          cases e1 with
          | otherError x => simp [retryLoop, wrapped, heq, hgs]
          | fdbError r =>
            rcases hoe : B.OnError tr r s1 with ⟨e2, s2⟩
            cases e2 with
            | none =>
              simp only [retryLoop, wrapped, heq, hgs, hoe, Run.eraseFailedResult_after]
              rw [ih ret1 ret1 s2]
            | some e2 => simp [retryLoop, wrapped, heq, hgs, hoe]
        | none =>
          rcases hcm : B.Commit tr s1 with ⟨e2, s2⟩
          cases e2 with
          | none => simp [retryLoop, wrapped, heq, hgs, hcm]
          | some e2 =>
            cases e2 with
            | otherError x => simp [retryLoop, wrapped, heq, hgs, hcm]
            | fdbError r =>
              rcases hoe : B.OnError tr r s2 with ⟨e3, s3⟩
              cases e3 with
              | none =>
                simp only [retryLoop, wrapped, heq, hgs, hcm, hoe, Run.eraseFailedResult_after]
                rw [ih ret1 ret1 s3]
              | some e3 => simp [retryLoop, wrapped, heq, hgs, hcm, hoe]
    · rcases hoe : B.OnError tr E s1 with ⟨e2, s2⟩
      cases e2 with
      | none =>
        simp only [retryLoop, wrapped, hf, hg, hoe, Run.eraseFailedResult_after]
        rw [ih retf r s2]
      | some e2 => simp [retryLoop, wrapped, hf, hg, hoe, Run.eraseFailedResult]

/-- An attempt that fails with a backend error under `f` fails with the same
error, and leaves the same state, under a `g` that returns where `f` panics. -/
theorem attemptFails_of_panicAsReturn {V σ : Type} {B : Backend σ} {f g : Work V σ}
    {tr : Transaction} {s s1 : σ} {E : Error} (hfg : PanicAsReturn f g)
    (h : AttemptFails B f tr s E s1) : AttemptFails B g tr s E s1 := by
  cases h with
  | workReturns hf =>
    rcases hfg tr s with heq | ⟨E1, r1, u, hf1, _⟩
    · exact .workReturns (heq ▸ hf)
    · rw [hf] at hf1; simp at hf1
  | workPanics hf =>
    rcases hfg tr s with heq | ⟨E1, r1, u, hf1, hg1⟩
    · exact .workPanics (heq ▸ hf)
    · rw [hf] at hf1
      simp only [Prod.mk.injEq, WorkResult.panics.injEq, PanicValue.fdbError.injEq] at hf1
      obtain ⟨rfl, rfl⟩ := hf1
      exact .workReturns hg1
  | commitFails hf hcm =>
    rcases hfg tr s with heq | ⟨E1, r1, u, hf1, _⟩
    · exact .commitFails (heq ▸ hf) hcm
    · rw [hf] at hf1; simp at hf1

/-- The attempts retried under `f` are retried under a `g` that returns where
`f` panics. -/
theorem retried_of_panicAsReturn {V σ : Type} {B : Backend σ} {f g : Work V σ}
    {tr : Transaction} {k : Nat} {s sk : σ} (hfg : PanicAsReturn f g)
    (h : Retried B f tr k s sk) : Retried B g tr k s sk := by
  induction h with
  | zero => exact .zero
  | succ ha hE _ ih => exact .succ (attemptFails_of_panicAsReturn hfg ha) hE ih

/-- A trace whose events are all about a transaction holds no creation call. -/
theorem createCalls_eq_zero (tr : Transaction) (evs : List Event)
    (h : ∀ ev ∈ evs, ev.transaction? = some tr) : createCalls evs = 0 := by
  unfold createCalls
  rw [List.countP_eq_zero]
  intro ev hev
  have := h ev hev
  cases ev <;> simp_all [Event.transaction?]

/-- On an open database whose creation call succeeds, `Transact` is the loop run
on the created transaction, after the creation call. -/
theorem Transact_open {V σ : Type} (c : Int) (B : Backend σ) (d : Database) (f : Work V σ)
    (h t : Nat) (s s0 : σ) (fuel : Nat) (hd : d.d = some h)
    (hc : B.fdb_database_create_transaction h s = ((0, t), s0)) :
    Transact c B d f fuel s
      = (retryLoop B f ⟨t⟩ fuel none none s0).after [.createTransaction h] := by
  simp [Transact, CreateTransaction, hd, hc]

/-- On an open database whose creation call succeeds, after `k` retried attempts
`Transact` stands at attempt `k + 1`, having created one transaction and
invoked the work and `OnError` `k` times each. -/
theorem Transact_retried {V σ : Type} (c : Int) (B : Backend σ) (d : Database)
    (f : Work V σ) (h t : Nat) (s s0 sk : σ) (k : Nat) (hd : d.d = some h)
    (hc : B.fdb_database_create_transaction h s = ((0, t), s0))
    (hk : Retried B f ⟨t⟩ k s0 sk) (m : Nat) :
    ∃ evs ret1, Transact c B d f (k + m) s
        = (retryLoop B f ⟨t⟩ m ret1 none sk).after evs ∧
      workCalls evs = k ∧ onErrorCalls evs = k ∧ createCalls evs = 1 := by
  obtain ⟨evs, ret1, h1, w1, o1, c1⟩ := retryLoop_retried hk m none
  refine ⟨[.createTransaction h] ++ evs, ret1, ?_, ?_, ?_, ?_⟩
  · rw [Transact_open c B d f h t s s0 (k + m) hd hc, h1, Run.after_after]
  · rw [workCalls_append, w1]; simp [workCalls]
  · rw [onErrorCalls_append, o1]; simp [onErrorCalls]
  · rw [createCalls_append, c1]; simp [createCalls]

/-- The three retried attempts of `demoWork` on `demoBackend`. -/
theorem demo_retried (fourth : WorkResult Nat) :
    Retried demoBackend (demoWork fourth) ⟨7⟩ 3 0 3 :=
  @Retried.succ _ _ _ _ _ 2 0 0 1 3 ⟨1020⟩
    (@AttemptFails.workReturns _ _ _ _ _ 0 0 (some 5) ⟨1020⟩ rfl) rfl
    (@Retried.succ _ _ _ _ _ 1 1 1 2 3 ⟨1021⟩
      (@AttemptFails.commitFails _ _ _ _ _ 1 1 1 (some 11) ⟨1021⟩ rfl rfl) rfl
      (@Retried.succ _ _ _ _ _ 0 2 2 3 3 ⟨1007⟩
        (@AttemptFails.workPanics _ _ _ _ _ 2 2 ⟨1007⟩ rfl) rfl Retried.zero))

/-! ## The claims -/

/-- C1. Retry count: on an open database where creation succeeds, if each of the
first `k` attempts fails with a backend error (returned by the work, carried by
its panic, or reported by `Commit`) for which `OnError` succeeds, and in attempt
`k + 1` the work returns `(r, nil)` and `Commit` succeeds, then with fuel for
`k + 1` passes `Transact` returns `(r, nil)` and has invoked the work exactly
`k + 1` times (and `OnError` exactly `k` times, after one creation call). -/
theorem Transact_retry_count {V σ : Type} (c : Int) (B : Backend σ) (d : Database)
    (f : Work V σ) (h t : Nat) (s s0 sk s1 s2 : σ) (k fuel : Nat) (r : Option V)
    (hd : d.d = some h)
    (hc : B.fdb_database_create_transaction h s = ((0, t), s0))
    (hk : Retried B f ⟨t⟩ k s0 sk)
    (hf : f ⟨t⟩ sk = (.returns r none, s1))
    (hcommit : B.Commit ⟨t⟩ s1 = (none, s2))
    (hfuel : k < fuel) :
    (Transact c B d f fuel s).outcome = some (.returned (r, none)) ∧
    (Transact c B d f fuel s).final = s2 ∧
    workCalls (Transact c B d f fuel s).trace = k + 1 ∧
    onErrorCalls (Transact c B d f fuel s).trace = k ∧
    createCalls (Transact c B d f fuel s).trace = 1 := by
  obtain ⟨m, rfl⟩ : ∃ m, fuel = k + (m + 1) := ⟨fuel - k - 1, by omega⟩
  obtain ⟨evs, ret1, h1, w1, o1, c1⟩ := Transact_retried c B d f h t s s0 sk k hd hc hk (m + 1)
  rw [h1]
  simp [retryLoop, wrapped, hf, hcommit, Run.after, workCalls_append, onErrorCalls_append,
    createCalls_append, w1, o1, c1]
  simp [workCalls, onErrorCalls, createCalls]

/-- Witness of C1: three retried attempts, one of each kind, then success. -/
theorem Transact_retry_count_witness :
    (Transact 2000 demoBackend ⟨some 1⟩ (demoWork (.returns (some 13) none)) 4 0).outcome
        = some (.returned (some 13, none)) ∧
    (Transact 2000 demoBackend ⟨some 1⟩ (demoWork (.returns (some 13) none)) 4 0).final = 3 ∧
    workCalls (Transact 2000 demoBackend ⟨some 1⟩
        (demoWork (.returns (some 13) none)) 4 0).trace = 3 + 1 ∧
    onErrorCalls (Transact 2000 demoBackend ⟨some 1⟩
        (demoWork (.returns (some 13) none)) 4 0).trace = 3 ∧
    createCalls (Transact 2000 demoBackend ⟨some 1⟩
        (demoWork (.returns (some 13) none)) 4 0).trace = 1 :=
  Transact_retry_count 2000 demoBackend ⟨some 1⟩ (demoWork (.returns (some 13) none))
    1 7 0 0 3 3 3 3 4 (some 13) rfl rfl (demo_retried _) rfl rfl (by decide)

/-- C2. First-attempt success: on an open database where creation and `Commit`
succeed, if the work returns `(r, nil)` on its first invocation then `Transact`
(with fuel for one pass) returns `(r, nil)`, and its calls are exactly: the
creation, one invocation of the work, one `Commit`; `OnError` is never called. -/
theorem Transact_first_attempt_success {V σ : Type} (c : Int) (B : Backend σ)
    (d : Database) (f : Work V σ) (h t : Nat) (s s0 s1 s2 : σ) (fuel : Nat) (r : Option V)
    (hd : d.d = some h)
    (hc : B.fdb_database_create_transaction h s = ((0, t), s0))
    (hf : f ⟨t⟩ s0 = (.returns r none, s1))
    (hcommit : B.Commit ⟨t⟩ s1 = (none, s2))
    (hfuel : 0 < fuel) :
    Transact c B d f fuel s
      = ⟨some (.returned (r, none)),
         [.createTransaction h, .work ⟨t⟩, .commit ⟨t⟩], s2⟩ ∧
    workCalls (Transact c B d f fuel s).trace = 1 ∧
    commitCalls (Transact c B d f fuel s).trace = 1 ∧
    onErrorCalls (Transact c B d f fuel s).trace = 0 := by
  obtain ⟨m, rfl⟩ : ∃ m, fuel = m + 1 := ⟨fuel - 1, by omega⟩
  have hrun : Transact c B d f (m + 1) s
      = ⟨some (.returned (r, none)),
         [.createTransaction h, .work ⟨t⟩, .commit ⟨t⟩], s2⟩ := by
    rw [Transact_open c B d f h t s s0 (m + 1) hd hc]
    simp [retryLoop, wrapped, hf, hcommit, Run.after]
  rw [hrun]
  exact ⟨rfl, rfl, rfl, rfl⟩

/-- Witness of C2: a work that succeeds at once on a backend that commits. -/
theorem Transact_first_attempt_success_witness :
    Transact 2000 (scriptedBackend (0, 7) (fun _ => none) (fun _ => none)) ⟨some 1⟩
        (scriptedWork fun _ => .returns (some 42) none) 1 0
      = ⟨some (.returned (some 42, none)),
         [.createTransaction 1, .work ⟨7⟩, .commit ⟨7⟩], 0⟩ ∧
    workCalls (Transact 2000 (scriptedBackend (0, 7) (fun _ => none) (fun _ => none))
        ⟨some 1⟩ (scriptedWork fun _ => .returns (some 42) none) 1 0).trace = 1 ∧
    commitCalls (Transact 2000 (scriptedBackend (0, 7) (fun _ => none) (fun _ => none))
        ⟨some 1⟩ (scriptedWork fun _ => .returns (some 42) none) 1 0).trace = 1 ∧
    onErrorCalls (Transact 2000 (scriptedBackend (0, 7) (fun _ => none) (fun _ => none))
        ⟨some 1⟩ (scriptedWork fun _ => .returns (some 42) none) 1 0).trace = 0 :=
  Transact_first_attempt_success 2000 (scriptedBackend (0, 7) (fun _ => none) (fun _ => none))
    ⟨some 1⟩ (scriptedWork fun _ => .returns (some 42) none) 1 7 0 0 0 0 1 (some 42)
    rfl rfl rfl rfl (by decide)

/-- C3. `OnError` failure is terminal: on an open database where creation
succeeds, if after `k` retried attempts the next attempt fails with the backend
error `E` and `OnError(E)` fails with `E2`, then `Transact` returns `E2` as its
error; the work has been invoked `k + 1` times and `OnError` `k + 1` times, once
per attempt, and the last call of the run is that `OnError(E)`: the work is not
invoked again and `E2` is not passed to `OnError`. -/
theorem Transact_onError_failure_terminal {V σ : Type} (c : Int) (B : Backend σ)
    (d : Database) (f : Work V σ) (h t : Nat) (s s0 sk s1 s2 : σ) (k fuel : Nat)
    (E : Error) (E2 : GoError)
    (hd : d.d = some h)
    (hc : B.fdb_database_create_transaction h s = ((0, t), s0))
    (hk : Retried B f ⟨t⟩ k s0 sk)
    (hfail : AttemptFails B f ⟨t⟩ sk E s1)
    (hE : B.OnError ⟨t⟩ E s1 = (some E2, s2))
    (hfuel : k < fuel) :
    (∃ ret, (Transact c B d f fuel s).outcome = some (.returned (ret, some E2))) ∧
    (Transact c B d f fuel s).final = s2 ∧
    workCalls (Transact c B d f fuel s).trace = k + 1 ∧
    onErrorCalls (Transact c B d f fuel s).trace = k + 1 ∧
    (Transact c B d f fuel s).trace.getLast? = some (.onError ⟨t⟩ E) := by
  obtain ⟨m, rfl⟩ : ∃ m, fuel = k + (m + 1) := ⟨fuel - k - 1, by omega⟩
  obtain ⟨evs, ret1, h1, w1, o1, c1⟩ := Transact_retried c B d f h t s s0 sk k hd hc hk (m + 1)
  rw [h1]
  cases hfail with
  | workReturns hf =>
    simp [retryLoop, wrapped, hf, hE, Run.after, workCalls_append, onErrorCalls_append, w1, o1]
    simp [workCalls, onErrorCalls]
  | workPanics hf =>
    simp [retryLoop, wrapped, hf, hE, Run.after, workCalls_append, onErrorCalls_append, w1, o1]
    simp [workCalls, onErrorCalls]
  | commitFails hf hcm =>
    simp [retryLoop, wrapped, hf, hcm, hE, Run.after, workCalls_append, onErrorCalls_append,
      w1, o1]
    simp [workCalls, onErrorCalls]

/-- Witness of C3: after the three retried attempts of `demoWork`, the fourth
returns a backend error and `OnError` fails with code 1031. -/
theorem Transact_onError_failure_terminal_witness :
    (∃ ret, (Transact 2000 demoBackend ⟨some 1⟩
        (demoWork (.returns none (some (.fdbError ⟨1009⟩)))) 9 0).outcome
        = some (.returned (ret, some (.fdbError ⟨1031⟩)))) ∧
    (Transact 2000 demoBackend ⟨some 1⟩
        (demoWork (.returns none (some (.fdbError ⟨1009⟩)))) 9 0).final = 4 ∧
    workCalls (Transact 2000 demoBackend ⟨some 1⟩
        (demoWork (.returns none (some (.fdbError ⟨1009⟩)))) 9 0).trace = 3 + 1 ∧
    onErrorCalls (Transact 2000 demoBackend ⟨some 1⟩
        (demoWork (.returns none (some (.fdbError ⟨1009⟩)))) 9 0).trace = 3 + 1 ∧
    (Transact 2000 demoBackend ⟨some 1⟩
        (demoWork (.returns none (some (.fdbError ⟨1009⟩)))) 9 0).trace.getLast?
      = some (.onError ⟨7⟩ ⟨1009⟩) :=
  Transact_onError_failure_terminal 2000 demoBackend ⟨some 1⟩
    (demoWork (.returns none (some (.fdbError ⟨1009⟩)))) 1 7 0 0 3 3 4 3 9 ⟨1009⟩
    (.fdbError ⟨1031⟩) rfl rfl (demo_retried _) (@AttemptFails.workReturns _ _ _ _ _ 3 3 none ⟨1009⟩ rfl) rfl (by decide)

/-- What the loop does with a panic value that is neither nil nor a `*Error`:
on an open database where creation succeeds, if after `k` retried attempts the
work panics with such a `v`, then `Transact` panics with the same `v` and
returns no pair; the work has been invoked `k + 1` times, `OnError` only for the
`k` retried attempts, and the last call of the run is that invocation of the
work: no `Commit`, no `OnError` and no further invocation follow it. -/
theorem Transact_nonnil_fault_propagates {V σ : Type} (c : Int) (B : Backend σ)
    (d : Database) (f : Work V σ) (h t : Nat) (s s0 sk s1 : σ) (k fuel : Nat)
    (v : PanicValue)
    (hd : d.d = some h)
    (hc : B.fdb_database_create_transaction h s = ((0, t), s0))
    (hk : Retried B f ⟨t⟩ k s0 sk)
    (hf : f ⟨t⟩ sk = (.panics v, s1))
    (hnil : v ≠ .nil)
    (hv : ∀ E : Error, v ≠ .fdbError E)
    (hfuel : k < fuel) :
    (Transact c B d f fuel s).outcome = some (.panicked v) ∧
    (Transact c B d f fuel s).final = s1 ∧
    workCalls (Transact c B d f fuel s).trace = k + 1 ∧
    onErrorCalls (Transact c B d f fuel s).trace = k ∧
    (Transact c B d f fuel s).trace.getLast? = some (.work ⟨t⟩) := by
  obtain ⟨m, rfl⟩ : ∃ m, fuel = k + (m + 1) := ⟨fuel - k - 1, by omega⟩
  obtain ⟨evs, ret1, h1, w1, o1, c1⟩ := Transact_retried c B d f h t s s0 sk k hd hc hk (m + 1)
  rw [h1]
  cases v with
  | nil => exact absurd rfl hnil
  | fdbError E => exact absurd rfl (hv E)
  | typeAssertion =>
    simp [retryLoop, wrapped, hf, Run.after, workCalls_append, onErrorCalls_append, w1, o1]
    simp [workCalls, onErrorCalls]
  | nilDereference =>
    simp [retryLoop, wrapped, hf, Run.after, workCalls_append, onErrorCalls_append, w1, o1]
    simp [workCalls, onErrorCalls]
  | other x =>
    simp [retryLoop, wrapped, hf, Run.after, workCalls_append, onErrorCalls_append, w1, o1]
    simp [workCalls, onErrorCalls]

/-- C4: the code at the failing input.  On an open database where creation
succeeds, the work calls `panic(nil)` on its first invocation.  The panic value
nil is not a `*Error`, and the claim has `Transact` panic with it; the code
stops the panic and returns `(nil, nil)`, a success, after the calls
`[createTransaction, work]`: `Commit` was never called.  The same happens on a
later attempt: after a retried attempt that returned the result 5, `panic(nil)`
in the second attempt makes `Transact` return `(5, nil)`. -/
theorem Transact_swallows_nil_panic :
    Transact 2000 (scriptedBackend (0, 7) (fun _ => none) fun _ => none) ⟨some 1⟩
        (scriptedWork fun _ => .panics .nil) 9 0
      = ⟨some (.returned (none, none)), [.createTransaction 1, .work ⟨7⟩], 0⟩ ∧
    Transact 2000 (scriptedBackend (0, 7) (fun _ => none) fun _ => none) ⟨some 1⟩
        (scriptedWork fun n => if n = 0 then .returns (some 5) (some (.fdbError ⟨1020⟩))
          else .panics .nil) 9 0
      = ⟨some (.returned (some 5, none)),
         [.createTransaction 1, .work ⟨7⟩, .onError ⟨7⟩ ⟨1020⟩, .work ⟨7⟩], 1⟩ := by
  decide

/-- C8. Creation failure is immediate: on an open database, if the native
creation call fails with a code `code ≠ 0`, then for every fuel `Transact`
returns `(nil, Error{code})` and its only call is that one creation call: the
work is never invoked and neither `Commit` nor `OnError` is called. -/
theorem Transact_creation_failure {V σ : Type} (c : Int) (B : Backend σ)
    (d : Database) (f : Work V σ) (h t : Nat) (s s0 : σ) (fuel : Nat) (code : Int)
    (hd : d.d = some h)
    (hc : B.fdb_database_create_transaction h s = ((code, t), s0))
    (hcode : code ≠ 0) :
    Transact c B d f fuel s
      = ⟨some (.returned (none, some (.fdbError ⟨code⟩))), [.createTransaction h], s0⟩ := by
  simp [Transact, CreateTransaction, hd, hc, hcode]

/-- Witness of C8: creation fails with code 1510. -/
theorem Transact_creation_failure_witness :
    Transact 2000 (scriptedBackend (1510, 0) (fun _ => none) (fun _ => none)) ⟨some 1⟩
        (demoWork (.returns (some 13) none)) 4 0
      = ⟨some (.returned (none, some (.fdbError ⟨1510⟩))), [.createTransaction 1], 0⟩ :=
  Transact_creation_failure 2000 (scriptedBackend (1510, 0) (fun _ => none) (fun _ => none))
    ⟨some 1⟩ (demoWork (.returns (some 13) none)) 1 0 0 0 4 1510 rfl rfl (by decide)

/-- C9. Errors that are not backend errors propagate unchanged: on an open
database where creation succeeds, if after `k` retried attempts the work
returns `(r, E)` with `E` non-nil and not a `*Error`, then `Transact` returns
exactly `E` as its error (with the `r` of that attempt); the work has been
invoked `k + 1` times, `OnError` only for the `k` retried attempts, and the last
call of the run is that invocation of the work: no `Commit`, no `OnError` and
no further invocation follow it. -/
theorem Transact_other_error_propagates {V σ : Type} (c : Int) (B : Backend σ)
    (d : Database) (f : Work V σ) (h t : Nat) (s s0 sk s1 : σ) (k fuel : Nat)
    (r : Option V) (x : Nat)
    (hd : d.d = some h)
    (hc : B.fdb_database_create_transaction h s = ((0, t), s0))
    (hk : Retried B f ⟨t⟩ k s0 sk)
    (hf : f ⟨t⟩ sk = (.returns r (some (.otherError x)), s1))
    (hfuel : k < fuel) :
    (Transact c B d f fuel s).outcome = some (.returned (r, some (.otherError x))) ∧
    (Transact c B d f fuel s).final = s1 ∧
    workCalls (Transact c B d f fuel s).trace = k + 1 ∧
    onErrorCalls (Transact c B d f fuel s).trace = k ∧
    (Transact c B d f fuel s).trace.getLast? = some (.work ⟨t⟩) := by
  obtain ⟨m, rfl⟩ : ∃ m, fuel = k + (m + 1) := ⟨fuel - k - 1, by omega⟩
  obtain ⟨evs, ret1, h1, w1, o1, c1⟩ := Transact_retried c B d f h t s s0 sk k hd hc hk (m + 1)
  rw [h1]
  simp [retryLoop, wrapped, hf, Run.after, workCalls_append, onErrorCalls_append, w1, o1]
  simp [workCalls, onErrorCalls]

/-- Witness of C9: after the three retried attempts of `demoWork`, the fourth
returns an error of another kind. -/
theorem Transact_other_error_propagates_witness :
    (Transact 2000 demoBackend ⟨some 1⟩
        (demoWork (.returns (some 8) (some (.otherError 3)))) 4 0).outcome
        = some (.returned (some 8, some (.otherError 3))) ∧
    (Transact 2000 demoBackend ⟨some 1⟩
        (demoWork (.returns (some 8) (some (.otherError 3)))) 4 0).final = 3 ∧
    workCalls (Transact 2000 demoBackend ⟨some 1⟩
        (demoWork (.returns (some 8) (some (.otherError 3)))) 4 0).trace = 3 + 1 ∧
    onErrorCalls (Transact 2000 demoBackend ⟨some 1⟩
        (demoWork (.returns (some 8) (some (.otherError 3)))) 4 0).trace = 3 ∧
    (Transact 2000 demoBackend ⟨some 1⟩
        (demoWork (.returns (some 8) (some (.otherError 3)))) 4 0).trace.getLast?
      = some (.work ⟨7⟩) :=
  Transact_other_error_propagates 2000 demoBackend ⟨some 1⟩
    (demoWork (.returns (some 8) (some (.otherError 3)))) 1 7 0 0 3 3 3 4 (some 8) 3
    rfl rfl (demo_retried _) rfl (by decide)

/-- C5. Closed-handle preflight: on a database whose native handle is nil, each
of `Transact`, `CreateTransaction`, `Get`, `GetKey`, `GetRange`,
`GetRangeSelector`, `GetRangeStartsWith`, `Set`, `Clear`, `ClearRange`,
`ClearRangeStartsWith`, `GetAndWatch`, `SetAndWatch` and `ClearAndWatch` returns
the error `Error{errorClientInvalidOperation}` with nil for every other result,
for every fuel, with an empty trace and an unchanged world state: no backend
call is made and the work given to `Transact` is not invoked. -/
theorem closed_handle_preflight {V σ : Type} (c : Int) (B : Backend σ)
    (T : TransactionOps σ) (f : Work V σ) (fuel : Nat) (s : σ)
    (key value begin_ end_ : Slice Nat) (sel selEnd : KeySelector) (options : RangeOptions) :
    Transact c B ⟨none⟩ f fuel s
      = ⟨some (.returned (none, some (.fdbError ⟨c⟩))), [], s⟩ ∧
    CreateTransaction c B ⟨none⟩ s = ((none, some (.fdbError ⟨c⟩)), [], s) ∧
    Get c B T ⟨none⟩ key fuel s
      = ⟨some (.returned (none, some (.fdbError ⟨c⟩))), [], s⟩ ∧
    GetKey c B T ⟨none⟩ sel fuel s
      = ⟨some (.returned (none, some (.fdbError ⟨c⟩))), [], s⟩ ∧
    GetRange c B T ⟨none⟩ begin_ end_ options fuel s
      = ⟨some (.returned (none, some (.fdbError ⟨c⟩))), [], s⟩ ∧
    GetRangeSelector c B T ⟨none⟩ sel selEnd options fuel s
      = ⟨some (.returned (none, some (.fdbError ⟨c⟩))), [], s⟩ ∧
    GetRangeStartsWith c B T ⟨none⟩ key options fuel s
      = ⟨some (.returned (none, some (.fdbError ⟨c⟩))), [], s⟩ ∧
    Database.Set c B T ⟨none⟩ key value fuel s
      = ⟨some (.returned (some (.fdbError ⟨c⟩))), [], s⟩ ∧
    Clear c B T ⟨none⟩ key fuel s
      = ⟨some (.returned (some (.fdbError ⟨c⟩))), [], s⟩ ∧
    ClearRange c B T ⟨none⟩ begin_ end_ fuel s
      = ⟨some (.returned (some (.fdbError ⟨c⟩))), [], s⟩ ∧
    ClearRangeStartsWith c B T ⟨none⟩ key fuel s
      = ⟨some (.returned (some (.fdbError ⟨c⟩))), [], s⟩ ∧
    GetAndWatch c B T ⟨none⟩ key fuel s
      = ⟨some (.returned (none, none, some (.fdbError ⟨c⟩))), [], s⟩ ∧
    SetAndWatch c B T ⟨none⟩ key value fuel s
      = ⟨some (.returned (none, some (.fdbError ⟨c⟩))), [], s⟩ ∧
    ClearAndWatch c B T ⟨none⟩ key fuel s
      = ⟨some (.returned (none, some (.fdbError ⟨c⟩))), [], s⟩ :=
  ⟨rfl, rfl, rfl, rfl, rfl, rfl, rfl, rfl, rfl, rfl, rfl, rfl, rfl, rfl⟩

/-- C6, as the claim states it, fails: on a backend that would hand out a new
handle at every creation call, a run of two attempts makes one creation call,
not two, and both attempts invoke the work on the same handle 100. -/
theorem Transact_fresh_transaction_fails :
    workCalls (Transact 2000 (freshHandleBackend fun _ => none) ⟨some 1⟩
        conflictOnce 5 (0, 0)).trace = 2 ∧
    ¬ createCalls (Transact 2000 (freshHandleBackend fun _ => none) ⟨some 1⟩
        conflictOnce 5 (0, 0)).trace = 2 ∧
    Transact 2000 (freshHandleBackend fun _ => none) ⟨some 1⟩ conflictOnce 5 (0, 0)
      = ⟨some (.returned (some 1, none)),
         [.createTransaction 1, .work ⟨100⟩, .onError ⟨100⟩ ⟨1020⟩, .work ⟨100⟩,
          .commit ⟨100⟩],
         (1, 1)⟩ := by
  decide

/-- C6, amended: on an open database, for every work, backend and fuel, the
trace of `Transact` starts with the creation call and holds exactly one creation
call, and every other call of the run (every invocation of the work, every
`Commit`, every `OnError`) is about the one transaction that this call created. -/
theorem Transact_single_transaction {V σ : Type} (c : Int) (B : Backend σ)
    (d : Database) (f : Work V σ) (h : Nat) (s : σ) (fuel : Nat) (hd : d.d = some h) :
    (Transact c B d f fuel s).trace.head? = some (.createTransaction h) ∧
    createCalls (Transact c B d f fuel s).trace = 1 ∧
    ∀ ev ∈ (Transact c B d f fuel s).trace, ∀ tr : Transaction,
      ev.transaction? = some tr → tr = ⟨(B.fdb_database_create_transaction h s).1.2⟩ := by
  rcases hc : B.fdb_database_create_transaction h s with ⟨⟨err, outt⟩, s0⟩
  by_cases herr : err = 0
  · subst herr
    rw [Transact_open c B d f h outt s s0 fuel hd hc]
    have htr := retryLoop_trace B f ⟨outt⟩ fuel none s0
    refine ⟨by simp [Run.after], ?_, ?_⟩
    · simp only [Run.after]
      rw [createCalls_append, createCalls_eq_zero ⟨outt⟩ _ htr]
      rfl
    · intro ev hev tr hev2
      simp only [Run.after, List.mem_append, List.mem_singleton] at hev
      rcases hev with rfl | hev
      · simp [Event.transaction?] at hev2
      · have := htr ev hev
        rw [this] at hev2
        simpa using hev2.symm
  · have hrun : Transact c B d f fuel s
        = ⟨some (.returned (none, some (.fdbError ⟨err⟩))), [.createTransaction h], s0⟩ := by
      simp [Transact, CreateTransaction, hd, hc, herr]
    rw [hrun]
    refine ⟨rfl, rfl, ?_⟩
    intro ev hev tr hev2
    simp only [List.mem_singleton] at hev
    subst hev
    simp [Event.transaction?] at hev2

/-- Witness of C6, amended: the run of two attempts on the backend that would
hand out new handles. -/
theorem Transact_single_transaction_witness :
    (Transact 2000 (freshHandleBackend fun _ => none) ⟨some 1⟩
        conflictOnce 5 (0, 0)).trace.head? = some (.createTransaction 1) ∧
    createCalls (Transact 2000 (freshHandleBackend fun _ => none) ⟨some 1⟩
        conflictOnce 5 (0, 0)).trace = 1 ∧
    ∀ ev ∈ (Transact 2000 (freshHandleBackend fun _ => none) ⟨some 1⟩
        conflictOnce 5 (0, 0)).trace, ∀ tr : Transaction,
      ev.transaction? = some tr →
      tr = ⟨((freshHandleBackend fun _ => none).fdb_database_create_transaction 1 (0, 0)).1.2⟩ :=
  Transact_single_transaction 2000 (freshHandleBackend fun _ => none) ⟨some 1⟩
    conflictOnce 1 (0, 0) 5 rfl

/-- C7, as the claim states it, fails: on the first attempt one work panics with
`Error{1020}` and the other returns `(7, Error{1020})`; `OnError` fails with
`Error{1031}`.  The calls are the same, but the first run returns
`(nil, Error{1031})` and the second `(7, Error{1031})`. -/
theorem Transact_panic_return_outcomes_differ :
    Transact 2000 (scriptedBackend (0, 7) (fun _ => none) fun _ => some (.fdbError ⟨1031⟩))
        ⟨some 1⟩ (scriptedWork fun _ => .panics (.fdbError ⟨1020⟩)) 3 0
      = ⟨some (.returned (none, some (.fdbError ⟨1031⟩))),
         [.createTransaction 1, .work ⟨7⟩, .onError ⟨7⟩ ⟨1020⟩], 1⟩ ∧
    Transact 2000 (scriptedBackend (0, 7) (fun _ => none) fun _ => some (.fdbError ⟨1031⟩))
        ⟨some 1⟩ (scriptedWork fun _ => .returns (some 7) (some (.fdbError ⟨1020⟩))) 3 0
      = ⟨some (.returned (some 7, some (.fdbError ⟨1031⟩))),
         [.createTransaction 1, .work ⟨7⟩, .onError ⟨7⟩ ⟨1020⟩], 1⟩ ∧
    (Transact 2000 (scriptedBackend (0, 7) (fun _ => none) fun _ => some (.fdbError ⟨1031⟩))
        ⟨some 1⟩ (scriptedWork fun _ => .panics (.fdbError ⟨1020⟩)) 3 0).outcome
      ≠ (Transact 2000 (scriptedBackend (0, 7) (fun _ => none) fun _ => some (.fdbError ⟨1031⟩))
        ⟨some 1⟩ (scriptedWork fun _ => .returns (some 7) (some (.fdbError ⟨1020⟩))) 3 0).outcome := by
  decide

/-- C7, amended: on an open database where creation succeeds, let the work `g`
be the work `f` with panics that carry a `*Error` replaced by returns of that
error, and let attempt `k + 1`, after `k` retried attempts, be one where `f`
panics with the `*Error` `E` and `g` returns `E` as its error.  Then, with fuel
for that attempt, the two runs of `Transact` make the same calls in the same
order, leave the same world state and end alike but for the result value (the
same panic, the same returned error or nil, or both out of fuel); in both runs
invocation `k + 1` of the work is followed at once by `OnError(E)` on the same
transaction, with no `Commit` between them; when `OnError` fails with `e2`
nothing follows and both runs return `e2` as their error (the run of `g` next
to the `r` that `g` returned), and when it succeeds and fuel is left the next
invocation of the work follows.  When `f` never panics with nil, the result value of a success is the
same in both runs as well. -/
theorem Transact_panic_as_return {V σ : Type} (c : Int) (B : Backend σ) (d : Database)
    (f g : Work V σ) (h t : Nat) (s s0 sk s1 : σ) (k fuel : Nat) (E : Error) (r : Option V)
    (hd : d.d = some h)
    (hc : B.fdb_database_create_transaction h s = ((0, t), s0))
    (hfg : PanicAsReturn f g)
    (hk : Retried B f ⟨t⟩ k s0 sk)
    (hf : f ⟨t⟩ sk = (.panics (.fdbError E), s1))
    (hg : g ⟨t⟩ sk = (.returns r (some (.fdbError E)), s1))
    (hfuel : k < fuel) :
    (Transact c B d f fuel s).eraseResult = (Transact c B d g fuel s).eraseResult ∧
    (∃ evs rest, workCalls evs = k ∧
      (Transact c B d f fuel s).trace = evs ++ .work ⟨t⟩ :: .onError ⟨t⟩ E :: rest ∧
      (Transact c B d g fuel s).trace = evs ++ .work ⟨t⟩ :: .onError ⟨t⟩ E :: rest ∧
      (∀ (e2 : GoError) (s2 : σ), B.OnError ⟨t⟩ E s1 = (some e2, s2) →
        rest = [] ∧
        (∃ ret, (Transact c B d f fuel s).outcome = some (.returned (ret, some e2))) ∧
        (Transact c B d g fuel s).outcome = some (.returned (r, some e2))) ∧
      ((B.OnError ⟨t⟩ E s1).1 = none → k + 1 < fuel → rest.head? = some (.work ⟨t⟩))) ∧
    ((∀ (tr : Transaction) (u u1 : σ), f tr u ≠ (.panics .nil, u1)) →
      (Transact c B d f fuel s).eraseFailedResult
        = (Transact c B d g fuel s).eraseFailedResult) := by
  obtain ⟨m, rfl⟩ : ∃ m, fuel = k + (m + 1) := ⟨fuel - k - 1, by omega⟩
  have hA : (Transact c B d f (k + (m + 1)) s).eraseResult
      = (Transact c B d g (k + (m + 1)) s).eraseResult := by
    rw [Transact_open c B d f h t s s0 _ hd hc, Transact_open c B d g h t s s0 _ hd hc,
      Run.eraseResult_after, Run.eraseResult_after,
      retryLoop_panicAsReturn B hfg ⟨t⟩ _ none none s0]
  have hT : (Transact c B d g (k + (m + 1)) s).trace
      = (Transact c B d f (k + (m + 1)) s).trace := (congrArg Run.trace hA).symm
  refine ⟨hA, ?_, ?_⟩
  · obtain ⟨evs, ret1, h1, w1, _, _⟩ :=
      Transact_retried c B d f h t s s0 sk k hd hc hk (m + 1)
    obtain ⟨evsg, retg, hg1, _, _, _⟩ :=
      Transact_retried c B d g h t s s0 sk k hd hc (retried_of_panicAsReturn hfg hk) (m + 1)
    rw [hT, h1]
    rcases hoe : B.OnError ⟨t⟩ E s1 with ⟨e2, s2⟩
    cases e2 with
    | some e2 =>
      refine ⟨evs, [], w1, ?_, ?_, fun e3 s3 h3 => ?_, fun hn => ?_⟩
      · simp [retryLoop, wrapped, hf, hoe, Run.after]
      · simp [retryLoop, wrapped, hf, hoe, Run.after]
      · simp only [Prod.mk.injEq, Option.some.injEq] at h3
        obtain ⟨rfl, rfl⟩ := h3
        refine ⟨rfl, ⟨ret1, ?_⟩, ?_⟩
        · simp [retryLoop, wrapped, hf, hoe, Run.after]
        · rw [hg1]
          simp [retryLoop, wrapped, hg, hoe, Run.after]
      · simp at hn
    | none =>
      refine ⟨evs, (retryLoop B f ⟨t⟩ m ret1 none s2).trace, w1, ?_, ?_, fun e3 s3 h3 => ?_,
        fun _ hm => ?_⟩
      · simp [retryLoop, wrapped, hf, hoe, Run.after]
      · simp [retryLoop, wrapped, hf, hoe, Run.after]
      · simp at h3
      · obtain ⟨n, rfl⟩ : ∃ n, m = n + 1 := ⟨m - 1, by omega⟩
        exact retryLoop_trace_head B f ⟨t⟩ n ret1 s2
  · intro hnil
    rw [Transact_open c B d f h t s s0 _ hd hc, Transact_open c B d g h t s s0 _ hd hc,
      Run.eraseFailedResult_after, Run.eraseFailedResult_after,
      retryLoop_panicAsReturn_of_no_nil B hfg hnil ⟨t⟩ _ none none s0]

theorem panicLater_returnLater : PanicAsReturn panicLater returnLater := by
  intro tr n
  by_cases hn : n = 0
  · left; simp [panicLater, returnLater, scriptedWork, hn]
  · right
    exact ⟨⟨1007⟩, none, n, by simp [panicLater, scriptedWork, hn],
      by simp [returnLater, scriptedWork, hn]⟩

theorem panicLater_no_nil (tr : Transaction) (u u1 : Nat) :
    panicLater tr u ≠ (.panics .nil, u1) := by
  by_cases hn : u = 0 <;> simp [panicLater, scriptedWork, hn]

/-- Witness of C7, amended: after one retried attempt the second attempt panics
with `Error{1007}` in one run and returns `(nil, Error{1007})` in the other;
`OnError` succeeds for it, and fails two attempts later. -/
theorem Transact_panic_as_return_witness :
    (Transact 2000 demoBackend ⟨some 1⟩ panicLater 9 0).eraseResult
      = (Transact 2000 demoBackend ⟨some 1⟩ returnLater 9 0).eraseResult ∧
    (∃ evs rest, workCalls evs = 1 ∧
      (Transact 2000 demoBackend ⟨some 1⟩ panicLater 9 0).trace
        = evs ++ .work ⟨7⟩ :: .onError ⟨7⟩ ⟨1007⟩ :: rest ∧
      (Transact 2000 demoBackend ⟨some 1⟩ returnLater 9 0).trace
        = evs ++ .work ⟨7⟩ :: .onError ⟨7⟩ ⟨1007⟩ :: rest ∧
      (∀ (e2 : GoError) (s2 : Nat), demoBackend.OnError ⟨7⟩ ⟨1007⟩ 1 = (some e2, s2) →
        rest = [] ∧
        (∃ ret, (Transact 2000 demoBackend ⟨some 1⟩ panicLater 9 0).outcome
          = some (.returned (ret, some e2))) ∧
        (Transact 2000 demoBackend ⟨some 1⟩ returnLater 9 0).outcome
          = some (.returned (none, some e2))) ∧
      ((demoBackend.OnError ⟨7⟩ ⟨1007⟩ 1).1 = none → 1 + 1 < 9 →
        rest.head? = some (.work ⟨7⟩))) ∧
    (Transact 2000 demoBackend ⟨some 1⟩ panicLater 9 0).eraseFailedResult
      = (Transact 2000 demoBackend ⟨some 1⟩ returnLater 9 0).eraseFailedResult :=
  have hw := Transact_panic_as_return 2000 demoBackend ⟨some 1⟩ panicLater returnLater
    1 7 0 0 1 1 1 9 ⟨1007⟩ none rfl rfl panicLater_returnLater
    (@Retried.succ _ _ _ _ _ 0 0 0 1 1 ⟨1020⟩
      (@AttemptFails.workReturns _ _ _ _ _ 0 0 (some 5) ⟨1020⟩ rfl) rfl Retried.zero)
    rfl rfl (by decide)
  ⟨hw.1, hw.2.1, hw.2.2 panicLater_no_nil⟩

/-- C10: the code at the failing input.  Attempt 1 returns `(5, Error{1020})` and
is retried because `OnError` succeeds; attempt 2 panics with `Error{1007}` and
`OnError` fails with `Error{1031}`.  `Transact` returns `(5, Error{1031})`: the
result of the retried attempt 1 comes back with the terminal error. -/
theorem Transact_stale_result_after_panic :
    Transact 2000
        (scriptedBackend (0, 7) (fun _ => none)
          fun n => if n = 0 then none else some (.fdbError ⟨1031⟩))
        ⟨some 1⟩
        (scriptedWork fun n => if n = 0 then .returns (some 5) (some (.fdbError ⟨1020⟩))
          else .panics (.fdbError ⟨1007⟩)) 9 0
      = ⟨some (.returned (some 5, some (.fdbError ⟨1031⟩))),
         [.createTransaction 1, .work ⟨7⟩, .onError ⟨7⟩ ⟨1020⟩, .work ⟨7⟩,
          .onError ⟨7⟩ ⟨1007⟩],
         2⟩ := by
  decide

end fdb
